import Mathlib

/-!
Shallow embedding of `bot.py` (Discord bot forwarding `/ask` prompts to a
locally hosted LLM) and verification of its specified behaviour.

The embedding models:
  - the Python string operations the code uses: `str.strip()`,
    `str.rstrip('/')`, slicing `s[:n]`, and truthiness of strings;
  - `json.dumps(data, indent=2)` as used by the fallback path;
  - `get_env_var`, `call_local_llm`, the `ask` slash-command handler, and
    the startup sequence `create_client` / `main`.

Backend behaviour (the HTTP server, the network) is a parameter: a function
from the outgoing request to the observed outcome, covering a delivered HTTP
response (status, text body, and the result of parsing the body as JSON) or
an exception raised by the HTTP or JSON machinery.
-/

namespace Bot

/-- ASCII whitespace as recognised by Python `str.strip()` with no
arguments: space, tab, newline, carriage return, vertical tab, form feed. -/
def isPyWhitespace (c : Char) : Bool :=
  c = ' ' || c = '\t' || c = '\n' || c = '\r' || c = '\x0b' || c = '\x0c'

/-- Python `s.strip()`: remove leading and trailing whitespace. -/
def pyStrip (s : String) : String :=
  String.mk (((s.data.dropWhile isPyWhitespace).reverse.dropWhile isPyWhitespace).reverse)

/-- Python slicing `s[:n]` for a nonnegative bound: the first `n` characters. -/
def pySlice (s : String) (n : Nat) : String :=
  String.mk (s.data.take n)

/-- Python `s.rstrip('/')` as used on the base URL at bot.py line 65:
remove every trailing slash. -/
def pyRstripSlash (s : String) : String :=
  String.mk ((s.data.reverse.dropWhile (fun c => c = '/')).reverse)

/-- JSON values, as produced by `resp.json()` / consumed by `json.dumps`.
Numbers are modelled as integers (no claim exercises fractional numbers). -/
inductive Json where
  | null : Json
  | bool : Bool → Json
  | num : Int → Json
  | str : String → Json
  | arr : List Json → Json
  | obj : List (String × Json) → Json

/-- Python dict subscript `d[key]` on a JSON object: first binding of the
key. Objects obtained from `json` parsing have unique keys. -/
def lookupKey (key : String) : List (String × Json) → Option Json
  | [] => none
  | (k, v) :: kvs => if k = key then some v else lookupKey key kvs

/-- Subscripting `j[key]` with a string key: succeeds only on an object
holding the key; on anything else Python raises (TypeError / KeyError),
modelled as `none`. -/
def Json.get? (j : Json) (key : String) : Option Json :=
  match j with
  | .obj kvs => lookupKey key kvs
  | _ => none

/-- Lower-case hexadecimal digit, as in Python `json` escapes. -/
def hexDigit (n : Nat) : Char :=
  if n < 10 then Char.ofNat (48 + n) else Char.ofNat (87 + n)

/-- Four lower-case hex digits. -/
def hex4 (n : Nat) : String :=
  String.mk [hexDigit (n / 4096 % 16), hexDigit (n / 256 % 16),
             hexDigit (n / 16 % 16), hexDigit (n % 16)]

/-- Escape one character the way `json.dumps` does with its default
`ensure_ascii=True`: the named escapes, printable ASCII verbatim, and
everything else as `\uXXXX` (a surrogate pair beyond the BMP). -/
def escapeJsonChar (c : Char) : String :=
  if c = '"' then "\\\""
  else if c = '\\' then "\\\\"
  else if c = '\x08' then "\\b"
  else if c = '\x0c' then "\\f"
  else if c = '\n' then "\\n"
  else if c = '\r' then "\\r"
  else if c = '\t' then "\\t"
  else if 32 ≤ c.toNat ∧ c.toNat ≤ 126 then String.mk [c]
  else if c.toNat < 65536 then "\\u" ++ hex4 c.toNat
  else "\\u" ++ hex4 (55296 + (c.toNat - 65536) / 1024) ++
       "\\u" ++ hex4 (56320 + (c.toNat - 65536) % 1024)

/-- A JSON string literal as serialised by `json.dumps`. -/
def quoteJsonString (s : String) : String :=
  "\"" ++ String.join (s.data.map escapeJsonChar) ++ "\""

/-- An indentation run of `n` spaces. -/
def spacesStr (n : Nat) : String :=
  String.mk (List.replicate n ' ')

mutual

/-- Python `json.dumps(j, indent=2)` at current indentation depth `lvl`
(in spaces). With an indent, `json.dumps` uses separators `,` and `: `,
puts each container item on its own line, and renders empty containers
inline. -/
def dumpJson : Nat → Json → String
  | _, .null => "null"
  | _, .bool true => "true"
  | _, .bool false => "false"
  | _, .num n => toString n
  | _, .str s => quoteJsonString s
  | _, .arr [] => "[]"
  | lvl, .arr (x :: xs) =>
      "[\n" ++ dumpArrItems (lvl + 2) x xs ++ "\n" ++ spacesStr lvl ++ "]"
  | _, .obj [] => "\x7b\x7d"
  | lvl, .obj (kv :: kvs) =>
      "\x7b\n" ++ dumpObjItems (lvl + 2) kv kvs ++ "\n" ++ spacesStr lvl ++ "\x7d"
termination_by _ j => sizeOf j

/-- Comma-and-newline separated array items, each indented by `lvl`. -/
def dumpArrItems : Nat → Json → List Json → String
  | lvl, x, [] => spacesStr lvl ++ dumpJson lvl x
  | lvl, x, y :: ys => spacesStr lvl ++ dumpJson lvl x ++ ",\n" ++ dumpArrItems lvl y ys
termination_by _ x xs => sizeOf x + sizeOf xs

/-- Comma-and-newline separated object entries, each indented by `lvl`. -/
def dumpObjItems : Nat → String × Json → List (String × Json) → String
  | lvl, (k, v), [] => spacesStr lvl ++ quoteJsonString k ++ ": " ++ dumpJson lvl v
  | lvl, (k, v), kv :: kvs =>
      spacesStr lvl ++ quoteJsonString k ++ ": " ++ dumpJson lvl v ++ ",\n" ++
      dumpObjItems lvl kv kvs
termination_by _ kv kvs => sizeOf kv + sizeOf kvs

end

/-- The try-block of bot.py lines 79-82: `data["message"]["content"].strip()`.
`none` models any exception during extraction: `data` not an object, key
`"message"` or `"content"` missing, or the content not a string (so that
`.strip()` raises). -/
def extractContent (data : Json) : Option String :=
  match data.get? "message" with
  | none => none
  | some m =>
    match m.get? "content" with
    | none => none
    | some (.str s) => some (pyStrip s)
    | some _ => none

/-- One HTTP response as `call_local_llm` observes it: the status code,
the body as text (`resp.text()`), and the outcome of `resp.json()` —
either the parsed value or the message of the decode exception. -/
structure HttpResponse where
  status : Nat
  text : String
  jsonResult : Except String Json

/-- What the environment does with the single POST issued by
`call_local_llm`: deliver a response, or raise from the HTTP machinery
(connection failure, timeout, ...) with the given exception text. -/
inductive ServerBehavior where
  | reply : HttpResponse → ServerBehavior
  | raiseExc : String → ServerBehavior

/-- The one request `call_local_llm` issues. -/
structure LLMRequest where
  url : String
  payload : Json

/-- The JSON payload built at bot.py lines 66-70. -/
def mkPayload (model prompt : String) : Json :=
  .obj [("model", .str model),
        ("messages", .arr [.obj [("role", .str "user"), ("content", .str prompt)]]),
        ("stream", .bool false)]

/-- The request built at bot.py lines 65-73: URL from the base URL with
trailing slashes stripped, plus the chat payload. -/
def mkRequest (baseUrl model prompt : String) : LLMRequest :=
  ⟨pyRstripSlash baseUrl ++ "/api/chat", mkPayload model prompt⟩

/-- `call_local_llm(base_url, model, prompt)` run against a backend
behaviour: returns the list of requests issued (always exactly the one
POST) together with the returned string or the raised exception's text.
Mirrors bot.py lines 65-82. -/
def callLocalLLM (baseUrl model prompt : String)
    (server : LLMRequest → ServerBehavior) :
    List LLMRequest × Except String String :=
  let req := mkRequest baseUrl model prompt
  ([req],
    match server req with
    | .raiseExc msg => .error msg
    | .reply r =>
      if r.status ≠ 200 then
        .error ("LLM server returned " ++ toString r.status ++ ": " ++ r.text)
      else
        match r.jsonResult with
        | .error msg => .error msg
        | .ok data =>
          match extractContent data with
          | some c => .ok c
          | none => .ok (pySlice (dumpJson 0 data) 1900))

/-- The try/except of bot.py lines 111-114: a successful backend call
passes through, any exception becomes the error string. -/
def renderReply (result : Except String String) : String :=
  match result with
  | .ok t => t
  | .error e => "Error communicating with local model: " ++ e

/-- Python `text[:1900] or "(no content)"` (bot.py line 116): the
truncation, with the empty string replaced by the placeholder. -/
def pyOrPlaceholder (t : String) : String :=
  if pySlice t 1900 = "" then "(no content)" else pySlice t 1900

/-- Observable interaction effects of the `ask` handler. -/
inductive SendEvent where
  | deferThinking : SendEvent
  | followup : String → SendEvent

/-- The `ask` slash-command handler (bot.py lines 107-116) as the sequence
of interaction calls it performs: the deferred acknowledgment, then exactly
one follow-up send of the rendered, truncated reply. -/
def askEvents (baseUrl model prompt : String)
    (server : LLMRequest → ServerBehavior) : List SendEvent :=
  [SendEvent.deferThinking,
   SendEvent.followup (pyOrPlaceholder
     (renderReply (callLocalLLM baseUrl model prompt server).snd))]

/-- The texts of the follow-up messages among a handler's events. -/
def followupTexts (events : List SendEvent) : List String :=
  events.filterMap fun e =>
    match e with
    | .followup t => some t
    | _ => none

/-- `get_env_var(name)` (bot.py lines 32-45) over an environment `env`:
Python `if not value` treats both an unset variable (`None`) and one set
to the empty string as missing. -/
def getEnvVar (env : String → Option String) (name : String) :
    Except String String :=
  match env name with
  | none => .error ("Missing required environment variable: " ++ name)
  | some "" => .error ("Missing required environment variable: " ++ name)
  | some v => .ok v

/-- The configuration read by `create_client`. -/
structure BotConfig where
  discordToken : String
  baseUrl : String
  model : String

/-- The required environment variables of this variant. -/
def requiredEnvVars : List String :=
  ["DISCORD_TOKEN", "LLM_BASE_URL", "LLM_MODEL"]

/-- The configuration-reading part of `create_client` (bot.py lines 94-97):
the three mandatory variables are read, in order, before any Discord
object is constructed. -/
def createClient (env : String → Option String) : Except String BotConfig := do
  let discordToken ← getEnvVar env "DISCORD_TOKEN"
  let baseUrl ← getEnvVar env "LLM_BASE_URL"
  let model ← getEnvVar env "LLM_MODEL"
  return ⟨discordToken, baseUrl, model⟩

/-- How far `main` (bot.py lines 127-134) gets. -/
inductive MainResult where
  | configError : String → MainResult
  | connected : BotConfig → String → MainResult

/-- `main`: `create_client()` first, then a second `get_env_var` for the
token, and only then `client.run(token)` — the gateway connection. A
configuration error therefore terminates the process before any network
connection is attempted. -/
def mainRun (env : String → Option String) : MainResult :=
  match createClient env with
  | .error m => .configError m
  | .ok cfg =>
    match getEnvVar env "DISCORD_TOKEN" with
    | .error m => .configError m
    | .ok token => .connected cfg token

end Bot

namespace Bot

/-! ### Helper lemmas about the Python string primitives -/

theorem mk_eq_empty_iff (l : List Char) : String.mk l = "" ↔ l = [] := by
  constructor
  · intro h
    exact congrArg String.data h
  · intro h
    rw [h]

theorem length_pySlice (s : String) (n : Nat) : (pySlice s n).length ≤ n := by
  show (s.data.take n).length ≤ n
  simp only [List.length_take]
  omega

theorem pySlice_ne_empty (s : String) (h : s.data ≠ []) : pySlice s 1900 ≠ "" := by
  simp [pySlice, mk_eq_empty_iff, List.take_eq_nil_iff, h]

theorem pyOrPlaceholder_ne_empty (t : String) : pyOrPlaceholder t ≠ "" := by
  rw [pyOrPlaceholder]
  by_cases h : pySlice t 1900 = ""
  · rw [if_pos h]
    decide
  · rw [if_neg h]
    exact h

theorem length_pyOrPlaceholder (t : String) : (pyOrPlaceholder t).length ≤ 1900 := by
  rw [pyOrPlaceholder]
  by_cases h : pySlice t 1900 = ""
  · rw [if_pos h]
    decide
  · rw [if_neg h]
    exact length_pySlice t 1900

theorem pyOrPlaceholder_of_ne_nil (t : String) (h : t.data ≠ []) :
    pyOrPlaceholder t = pySlice t 1900 := by
  rw [pyOrPlaceholder, if_neg (pySlice_ne_empty t h)]

theorem errorReply_data_ne_nil (e : String) :
    ("Error communicating with local model: " ++ e).data ≠ [] := by
  intro h
  rw [String.data_append] at h
  have h2 : ("Error communicating with local model: ").data
      = 'E' :: ("rror communicating with local model: ").data := rfl
  rw [h2] at h
  exact List.cons_ne_nil _ _ h

/-! ### The claims -/

/-- C1: for every prompt (the empty one included) and every backend outcome
(success, raised exception, or extraction fallback), the single follow-up
reply sent by the `ask` handler is a non-empty string of length at most
1900. -/
theorem ask_reply_nonempty_bounded (baseUrl model prompt : String)
    (server : LLMRequest → ServerBehavior) :
    ∃ t : String, followupTexts (askEvents baseUrl model prompt server) = [t] ∧
      t ≠ "" ∧ t.length ≤ 1900 :=
  ⟨_, rfl, pyOrPlaceholder_ne_empty _, length_pyOrPlaceholder _⟩

/-- C2: the `ask` handler is total over every backend outcome (so every
exception raised by `call_local_llm` is caught at its boundary), it sends
exactly one follow-up reply — never zero, never more than one — and when
the backend call raises with text `e` the reply is the rendered error
string. -/
theorem ask_exactly_one_reply (baseUrl model prompt : String)
    (server : LLMRequest → ServerBehavior) :
    (followupTexts (askEvents baseUrl model prompt server)).length = 1 ∧
    ∀ e : String, (callLocalLLM baseUrl model prompt server).snd = .error e →
      followupTexts (askEvents baseUrl model prompt server)
        = [pyOrPlaceholder ("Error communicating with local model: " ++ e)] := by
  refine ⟨rfl, ?_⟩
  intro e he
  simp [followupTexts, askEvents, he, renderReply]

/-- C2 witness: a backend exception with text `boom` produces exactly the
one rendered error reply. -/
theorem ask_exactly_one_reply_witness :
    followupTexts (askEvents "http://llm" "m" "hi" (fun _ => .raiseExc "boom"))
      = ["Error communicating with local model: boom"] := by
  have h := (ask_exactly_one_reply "http://llm" "m" "hi" (fun _ => .raiseExc "boom")).2
    "boom" rfl
  rw [h]
  decide

/-- C7: for every base URL, model name and prompt — the empty prompt
included — `call_local_llm` issues exactly one POST, to the stripped base
URL plus `/api/chat`, whose JSON body is exactly the chat payload with the
prompt forwarded verbatim. -/
theorem single_request_payload (baseUrl model prompt : String)
    (server : LLMRequest → ServerBehavior) :
    (callLocalLLM baseUrl model prompt server).fst
      = [⟨pyRstripSlash baseUrl ++ "/api/chat",
          Json.obj [("model", Json.str model),
                    ("messages", Json.arr [Json.obj
                        [("role", Json.str "user"), ("content", Json.str prompt)]]),
                    ("stream", Json.bool false)]⟩] := rfl

/-- C8: a variable set to the empty string is treated exactly like an
unset one — `get_env_var` fails with the same message instead of
returning the empty string. -/
theorem empty_env_like_missing (env : String → Option String) (name : String)
    (h : env name = some "") :
    getEnvVar env name = .error ("Missing required environment variable: " ++ name) ∧
    getEnvVar env name = getEnvVar (fun _ => none) name := by
  simp [getEnvVar, h]

/-- C8 witness: an environment mapping every name to the empty string
fails for `DISCORD_TOKEN` with the exact message. -/
theorem empty_env_like_missing_witness :
    getEnvVar (fun _ => some "") "DISCORD_TOKEN"
      = .error "Missing required environment variable: DISCORD_TOKEN" := by
  have h := (empty_env_like_missing (fun _ => some "") "DISCORD_TOKEN" rfl).1
  have h2 : ("Missing required environment variable: " ++ "DISCORD_TOKEN" : String)
      = "Missing required environment variable: DISCORD_TOKEN" := by decide
  rw [h2] at h
  exact h


/-- C3: a non-200 response with status `status` and body `body` makes
`call_local_llm` raise a `RuntimeError` with message
`LLM server returned <status>: <body>`, and the reply delivered to the
user is the rendered error string truncated to 1900 characters. -/
theorem non200_error_reply (baseUrl model prompt body : String) (status : Nat)
    (jr : Except String Json) (server : LLMRequest → ServerBehavior)
    (hserver : server (mkRequest baseUrl model prompt) = .reply ⟨status, body, jr⟩)
    (hstatus : status ≠ 200) :
    (callLocalLLM baseUrl model prompt server).snd
      = .error ("LLM server returned " ++ toString status ++ ": " ++ body) ∧
    followupTexts (askEvents baseUrl model prompt server)
      = [pySlice ("Error communicating with local model: "
          ++ ("LLM server returned " ++ toString status ++ ": " ++ body)) 1900] := by
  have h1 : (callLocalLLM baseUrl model prompt server).snd
      = .error ("LLM server returned " ++ toString status ++ ": " ++ body) := by
    simp [callLocalLLM, hserver, hstatus]
  refine ⟨h1, ?_⟩
  have h2 := pyOrPlaceholder_of_ne_nil
    ("Error communicating with local model: "
      ++ ("LLM server returned " ++ toString status ++ ": " ++ body))
    (errorReply_data_ne_nil _)
  simp [followupTexts, askEvents, renderReply, h1, h2]

/-- C3 witness: HTTP 500 with body `overloaded` yields exactly the reply
`Error communicating with local model: LLM server returned 500: overloaded`. -/
theorem non200_error_reply_witness :
    (callLocalLLM "http://llm" "m" "q"
        (fun _ => .reply ⟨500, "overloaded", .error ""⟩)).snd
      = .error "LLM server returned 500: overloaded" ∧
    followupTexts (askEvents "http://llm" "m" "q"
        (fun _ => .reply ⟨500, "overloaded", .error ""⟩))
      = ["Error communicating with local model: LLM server returned 500: overloaded"] := by
  obtain ⟨h1, h2⟩ := non200_error_reply "http://llm" "m" "q" "overloaded" 500 (.error "")
    (fun _ => .reply ⟨500, "overloaded", .error ""⟩) rfl (by decide)
  have e1 : ("LLM server returned " ++ toString (500 : Nat) ++ ": " ++ "overloaded")
      = "LLM server returned 500: overloaded" := by decide
  rw [e1] at h1 h2
  have e2 : pySlice ("Error communicating with local model: "
      ++ "LLM server returned 500: overloaded") 1900
      = "Error communicating with local model: LLM server returned 500: overloaded" := by
    decide
  rw [e2] at h2
  exact ⟨h1, h2⟩

/-- C4: a 200 response whose JSON body has a string at `message.content`
makes `call_local_llm` return that string stripped of surrounding
whitespace. -/
theorem success_content_stripped (baseUrl model prompt body c : String)
    (data m : Json) (server : LLMRequest → ServerBehavior)
    (hserver : server (mkRequest baseUrl model prompt) = .reply ⟨200, body, .ok data⟩)
    (hmsg : data.get? "message" = some m)
    (hc : m.get? "content" = some (.str c)) :
    (callLocalLLM baseUrl model prompt server).snd = .ok (pyStrip c) := by
  simp [callLocalLLM, hserver, extractContent, hmsg, hc]

/-- C4 witness: the body with `message.content` set to `  Paris  ` yields
exactly `Paris`. -/
theorem success_content_stripped_witness :
    (callLocalLLM "http://llm" "m" "capital of France?"
        (fun _ => .reply ⟨200, "",
          .ok (.obj [("message", .obj [("content", .str "  Paris  ")])])⟩)).snd
      = .ok "Paris" := by
  have h := success_content_stripped "http://llm" "m" "capital of France?" ""
    "  Paris  "
    (.obj [("message", .obj [("content", .str "  Paris  ")])])
    (.obj [("content", .str "  Paris  ")])
    (fun _ => .reply ⟨200, "",
      .ok (.obj [("message", .obj [("content", .str "  Paris  ")])])⟩)
    rfl rfl rfl
  have e : pyStrip "  Paris  " = "Paris" := by decide
  rw [e] at h
  exact h

/-- C5: a 200 response whose JSON body defeats the extraction (any
exception on the `message.content` path) makes `call_local_llm` return the
pretty-printed JSON of the whole body, truncated to 1900 characters. -/
theorem success_fallback_dump (baseUrl model prompt body : String)
    (data : Json) (server : LLMRequest → ServerBehavior)
    (hserver : server (mkRequest baseUrl model prompt) = .reply ⟨200, body, .ok data⟩)
    (hfail : extractContent data = none) :
    (callLocalLLM baseUrl model prompt server).snd
      = .ok (pySlice (dumpJson 0 data) 1900) := by
  simp [callLocalLLM, hserver, hfail]

/-- C5 witness: the empty-object body yields exactly the two-character
pretty-printed JSON of the empty object. -/
theorem success_fallback_dump_witness :
    (callLocalLLM "http://llm" "m" "q"
        (fun _ => .reply ⟨200, "", .ok (.obj [])⟩)).snd
      = .ok "\x7b\x7d" := by
  have h := success_fallback_dump "http://llm" "m" "q" "" (.obj [])
    (fun _ => .reply ⟨200, "", .ok (.obj [])⟩) rfl rfl
  rw [h]
  have e : dumpJson 0 (Json.obj []) = "\x7b\x7d" := by simp [dumpJson]
  rw [e]
  exact congrArg Except.ok (by decide)


/-- Whatever error `create_client` raises, `main` terminates with it
before reaching the gateway connection. -/
theorem createClient_error_mainRun (env : String → Option String) (m : String)
    (h : createClient env = .error m) : mainRun env = .configError m := by
  simp [mainRun, h]

/-- C6: a missing required environment variable makes `get_env_var` fail
with the exact message naming it, and `create_client` then fails, so the
process never reaches the gateway-connection phase of `main`. -/
theorem missing_env_fatal (env : String → Option String) (name : String)
    (hreq : name ∈ requiredEnvVars) (hmiss : env name = none) :
    getEnvVar env name = .error ("Missing required environment variable: " ++ name) ∧
    ∃ m : String, createClient env = .error m ∧ mainRun env = .configError m := by
  have hge : getEnvVar env name
      = .error ("Missing required environment variable: " ++ name) := by
    simp [getEnvVar, hmiss]
  refine ⟨hge, ?_⟩
  simp only [requiredEnvVars, List.mem_cons, List.mem_singleton,
    List.not_mem_nil, or_false] at hreq
  rcases hreq with h | h | h
  · subst h
    have hc : createClient env
        = .error ("Missing required environment variable: " ++ "DISCORD_TOKEN") := by
      simp [createClient, Bind.bind, Except.bind, hge]
    exact ⟨_, hc, createClient_error_mainRun env _ hc⟩
  · subst h
    cases hdt : getEnvVar env "DISCORD_TOKEN" with
    | error m =>
      have hc : createClient env = .error m := by
        simp [createClient, Bind.bind, Except.bind, hdt]
      exact ⟨m, hc, createClient_error_mainRun env m hc⟩
    | ok t =>
      have hc : createClient env
          = .error ("Missing required environment variable: " ++ "LLM_BASE_URL") := by
        simp [createClient, Bind.bind, Except.bind, hdt, hge]
      exact ⟨_, hc, createClient_error_mainRun env _ hc⟩
  · subst h
    cases hdt : getEnvVar env "DISCORD_TOKEN" with
    | error m =>
      have hc : createClient env = .error m := by
        simp [createClient, Bind.bind, Except.bind, hdt]
      exact ⟨m, hc, createClient_error_mainRun env m hc⟩
    | ok t =>
      cases hbu : getEnvVar env "LLM_BASE_URL" with
      | error m =>
        have hc : createClient env = .error m := by
          simp [createClient, Bind.bind, Except.bind, hdt, hbu]
        exact ⟨m, hc, createClient_error_mainRun env m hc⟩
      | ok b =>
        have hc : createClient env
            = .error ("Missing required environment variable: " ++ "LLM_MODEL") := by
          simp [createClient, Bind.bind, Except.bind, hdt, hbu, hge]
        exact ⟨_, hc, createClient_error_mainRun env _ hc⟩

/-- C6 witness: with every variable set except `LLM_MODEL`, the process
stops with the configuration error naming `LLM_MODEL` and never connects. -/
theorem missing_env_fatal_witness :
    mainRun (fun n => if n = "LLM_MODEL" then none else some "v")
      = .configError "Missing required environment variable: LLM_MODEL" := by
  obtain ⟨h1, m, h2, h3⟩ := missing_env_fatal
    (fun n => if n = "LLM_MODEL" then none else some "v") "LLM_MODEL"
    (by decide) (by decide)
  have h4 : createClient (fun n => if n = "LLM_MODEL" then none else some "v")
      = .error ("Missing required environment variable: " ++ "LLM_MODEL") := rfl
  rw [h2] at h4
  have h5 : m = ("Missing required environment variable: " ++ "LLM_MODEL") := by
    injection h4
  have e : ("Missing required environment variable: " ++ "LLM_MODEL" : String)
      = "Missing required environment variable: LLM_MODEL" := by decide
  rw [h5, e] at h3
  exact h3

/-- The first character surviving `dropWhile` fails the predicate: here,
it is not a slash. -/
theorem dropSlash_head_ne (l : List Char) (x : Char)
    (hx : (l.dropWhile (fun c => decide (c = '/'))).head? = some x) : x ≠ '/' := by
  intro hx'
  have h := List.head?_dropWhile_not (fun c => decide (c = '/')) l
  rw [hx] at h
  subst hx'
  simp at h

/-- C9: every request URL is the base URL with all trailing slashes
removed followed by `/api/chat`: the stripped part is an actual prefix of
the base URL whose complement is a run of slashes, it does not end in a
slash, and appending a trailing slash to the base URL leaves the request
URL unchanged. -/
theorem url_trailing_slash_normalised (baseUrl model prompt : String)
    (server : LLMRequest → ServerBehavior) :
    (∀ r ∈ (callLocalLLM baseUrl model prompt server).fst,
        r.url = pyRstripSlash baseUrl ++ "/api/chat") ∧
    (∃ k : Nat, baseUrl.data = (pyRstripSlash baseUrl).data ++ List.replicate k '/') ∧
    (pyRstripSlash baseUrl).data.getLast? ≠ some '/' ∧
    (callLocalLLM (baseUrl ++ "/") model prompt server).fst.map LLMRequest.url
      = (callLocalLLM baseUrl model prompt server).fst.map LLMRequest.url := by
  refine ⟨?_, ?_, ?_, ?_⟩
  · intro r hr
    simp only [callLocalLLM, List.mem_singleton] at hr
    subst hr
    rfl
  · refine ⟨(baseUrl.data.reverse.takeWhile (fun c => decide (c = '/'))).length, ?_⟩
    have h1 : (pyRstripSlash baseUrl).data
        = (baseUrl.data.reverse.dropWhile (fun c => decide (c = '/'))).reverse := rfl
    rw [h1]
    have h2 : (baseUrl.data.reverse.takeWhile (fun c => decide (c = '/'))).reverse
        = List.replicate
            (baseUrl.data.reverse.takeWhile (fun c => decide (c = '/'))).length '/' := by
      have hall : ∀ x ∈ (baseUrl.data.reverse.takeWhile
          (fun c => decide (c = '/'))).reverse, x = '/' := by
        intro x hx
        rw [List.mem_reverse] at hx
        have hpx := List.mem_takeWhile_imp hx
        simpa using hpx
      have hr := List.eq_replicate_length.mpr hall
      simpa [List.length_reverse] using hr
    calc baseUrl.data
        = baseUrl.data.reverse.reverse := (List.reverse_reverse _).symm
      _ = (baseUrl.data.reverse.takeWhile (fun c => decide (c = '/'))
            ++ baseUrl.data.reverse.dropWhile (fun c => decide (c = '/'))).reverse := by
            rw [List.takeWhile_append_dropWhile]
      _ = (baseUrl.data.reverse.dropWhile (fun c => decide (c = '/'))).reverse
            ++ (baseUrl.data.reverse.takeWhile (fun c => decide (c = '/'))).reverse := by
            rw [List.reverse_append]
      _ = (baseUrl.data.reverse.dropWhile (fun c => decide (c = '/'))).reverse
            ++ List.replicate
                (baseUrl.data.reverse.takeWhile (fun c => decide (c = '/'))).length '/' := by
            rw [h2]
  · intro hcontra
    have h1 : (pyRstripSlash baseUrl).data
        = (baseUrl.data.reverse.dropWhile (fun c => decide (c = '/'))).reverse := rfl
    rw [h1, List.getLast?_reverse] at hcontra
    exact dropSlash_head_ne _ '/' hcontra rfl
  · have hstrip : pyRstripSlash (baseUrl ++ "/") = pyRstripSlash baseUrl := by
      show String.mk _ = String.mk _
      rw [String.data_append]
      have hrev : (baseUrl.data ++ ("/" : String).data).reverse
          = '/' :: baseUrl.data.reverse := by
        rw [List.reverse_append]
        rfl
      rw [hrev, List.dropWhile_cons_of_pos (by decide)]
    simp [callLocalLLM, mkRequest, hstrip]

/-- C9 witness: three trailing slashes on the base URL are stripped from
the request URL. -/
theorem url_trailing_slash_normalised_witness :
    ((callLocalLLM "http://llm///" "m" "p" (fun _ => .raiseExc "e")).fst.map
        LLMRequest.url) = ["http://llm/api/chat"] := by
  have h := (url_trailing_slash_normalised "http://llm///" "m" "p"
      (fun _ => .raiseExc "e")).1
    (mkRequest "http://llm///" "m" "p") (List.mem_singleton.mpr rfl)
  show [(mkRequest "http://llm///" "m" "p").url] = _
  rw [h]
  have e : pyRstripSlash "http://llm///" ++ "/api/chat" = "http://llm/api/chat" := by
    decide
  rw [e]

/-- C10: a 200 response whose `message.content` is all whitespace makes
`call_local_llm` return the empty string, and the `ask` handler then sends
the literal placeholder `(no content)`. -/
theorem whitespace_content_placeholder (baseUrl model prompt body c : String)
    (data m : Json) (server : LLMRequest → ServerBehavior)
    (hserver : server (mkRequest baseUrl model prompt) = .reply ⟨200, body, .ok data⟩)
    (hmsg : data.get? "message" = some m)
    (hc : m.get? "content" = some (.str c))
    (hws : ∀ ch ∈ c.data, isPyWhitespace ch = true) :
    (callLocalLLM baseUrl model prompt server).snd = .ok "" ∧
    followupTexts (askEvents baseUrl model prompt server) = ["(no content)"] := by
  have hstrip : pyStrip c = "" := by
    have h0 : c.data.dropWhile isPyWhitespace = [] :=
      List.dropWhile_eq_nil_iff.mpr hws
    simp [pyStrip, h0, mk_eq_empty_iff]
  have h1 : (callLocalLLM baseUrl model prompt server).snd = .ok "" := by
    simp [callLocalLLM, hserver, extractContent, hmsg, hc, hstrip]
  have h2 : pyOrPlaceholder "" = "(no content)" := by decide
  refine ⟨h1, ?_⟩
  simp [followupTexts, askEvents, renderReply, h1, h2]

/-- C10 witness: content `"  "` (two spaces) yields the empty extraction
and the `(no content)` reply. -/
theorem whitespace_content_placeholder_witness :
    (callLocalLLM "http://llm" "m" "q"
        (fun _ => .reply ⟨200, "",
          .ok (.obj [("message", .obj [("content", .str "  ")])])⟩)).snd
      = .ok "" ∧
    followupTexts (askEvents "http://llm" "m" "q"
        (fun _ => .reply ⟨200, "",
          .ok (.obj [("message", .obj [("content", .str "  ")])])⟩))
      = ["(no content)"] :=
  whitespace_content_placeholder "http://llm" "m" "q" "" "  "
    (.obj [("message", .obj [("content", .str "  ")])])
    (.obj [("content", .str "  ")])
    (fun _ => .reply ⟨200, "",
      .ok (.obj [("message", .obj [("content", .str "  ")])])⟩)
    rfl rfl rfl (by decide)

end Bot
